import Mathlib

/-!
Shallow embedding of the MCP server-testing harness (`src/main.py`) and
verification of the frozen claims about its probe orchestration and
error-classification engine.

Conventions of the embedding:
* Python strings are `String`, Python character slicing `s[:n]` is `pyTake`,
  Python `sub in s` is `hasSub s sub`, `s.lower()` is `pyLower`.
* A Python function that may raise is embedded as an `Except String` value,
  the exception carrying its `str(e)` message; a `try/except` handler is a
  `match` on that value.
* The external collaborators (the MCP server registry and the `json` module)
  are parameters: a `Registry` holds the configured server names and the
  `call_tool` behaviour; `Ctx.loads` is the `json.loads` parser.
* Result dictionaries become the `ProbeResult` structure; a key absent from a
  given dictionary is `none`.
-/

/-- Python `sub.startswith`-style prefix test on character lists. -/
def leadMatch : List Char → List Char → Bool
  | [], _ => true
  | _ :: _, [] => false
  | a :: s, b :: t => a == b && leadMatch s t

/-- Substring occurrence test on character lists. -/
def hasSubChars (sub : List Char) : List Char → Bool
  | [] => sub.isEmpty
  | c :: t => leadMatch sub (c :: t) || hasSubChars sub t

/-- Python `sub in s` (substring containment). -/
def hasSub (s sub : String) : Bool :=
  hasSubChars sub.toList s.toList

/-- Python `s[:n]` character slicing. -/
def pyTake (s : String) (n : Nat) : String :=
  String.mk (s.toList.take n)

/-- Python `s.lower()` over characters (kernel-reducible, unlike
`String.toLower`). -/
def pyLower (s : String) : String :=
  String.mk (s.toList.map Char.toLower)

/-- Python `s.count(sub)` for a nonempty `sub`: non-overlapping occurrences. -/
def pyCountChars (sub : List Char) : List Char → Nat
  | [] => 0
  | c :: t =>
    if leadMatch sub (c :: t) then pyCountChars sub (t.drop (sub.length - 1)) + 1
    else pyCountChars sub t
termination_by l => l.length
decreasing_by
  · simp [List.length_drop]; omega
  · simp

/-- Python `s.count(sub)`. -/
def pyCount (s sub : String) : Nat :=
  pyCountChars sub.toList s.toList

/-- Python `s.split('\n')`. -/
def splitLines (s : String) : List String :=
  s.split (fun c => c == '\n')

/-- Python `s.startswith('[')`. -/
def startsWithBracket (s : String) : Bool :=
  match s.toList with
  | '[' :: _ => true
  | _ => false

/-- The closed set of `status` values produced by the harness. -/
inductive Status where
  | success
  | notConfigured
  | authError
  | oauthRequired
  | connectionError
  | error
deriving DecidableEq, Repr

/-- Values handled by the modelled `json` module and tool arguments. -/
inductive Json where
  | null
  | bool (b : Bool)
  | num (n : Int)
  | str (s : String)
  | arr (xs : List Json)
  | obj (fields : List (String × Json))

/-- Python `str(v)` on a parsed JSON value.  Scalars are rendered faithfully;
the rendering of containers is abbreviated, which only affects the text of the
second fetch URL when a story id is itself a container. -/
def pyStr : Json → String
  | Json.null => "None"
  | Json.bool true => "True"
  | Json.bool false => "False"
  | Json.num n => toString n
  | Json.str s => s
  | Json.arr _ => "[...]"
  | Json.obj _ => "\x7b...\x7d"

/-- Python `dict.get` lookup on the fields of a JSON object. -/
def jLookup (fields : List (String × Json)) (k : String) : Option Json :=
  (fields.find? (fun p => p.1 == k)).map (fun p => p.2)

/-- Python truthiness of a `dict.get` result (`None` when the key is absent). -/
def jTruthy : Option Json → Bool
  | none => false
  | some Json.null => false
  | some (Json.bool b) => b
  | some (Json.num n) => n != 0
  | some (Json.str s) => !s.isEmpty
  | some (Json.arr xs) => !xs.isEmpty
  | some (Json.obj fs) => !fs.isEmpty

/-- A successful `call_tool` response: the `.text` of each `content` item. -/
structure CallResult where
  content : List String

/-- `result.content[0].text if result.content else ""`. -/
def headText : List String → String
  | [] => ""
  | t :: _ => t

/-- The server-registry boundary: the set of configured server names and the
`call_tool` capability, which either returns a response or raises with a
message. -/
structure Registry where
  configs : List String
  callTool : String → String → Json → Except String CallResult

/-- Per-run context: the registry plus the external `json.loads` parser. -/
structure Ctx where
  reg : Registry
  loads : String → Except String Json

/-- One probe-result dictionary.  `none` models an absent key; `status` is a
mandatory key on every path in the source. -/
structure ProbeResult where
  server : Option String := none
  status : Status
  transport : Option String := none
  authRequired : Option Bool := none
  details : Option String := none
  testDescription : Option String := none
  errorMsg : Option String := none
  errorDetail : Option String := none
  dataSample : Option String := none
  responseLength : Option Nat := none
  extra : List (String × String) := []
  timestamp : Option String := none
deriving DecidableEq, Repr

/-- Presence of the `server`, `transport`, `auth_required` and `timestamp`
keys (`status` is present by construction on every path). -/
def hasFive (r : ProbeResult) : Bool :=
  r.server.isSome && r.transport.isSome && r.authRequired.isSome && r.timestamp.isSome

/-! ## Error classifier (`test_server_with_auth`, the `except` branch) -/

/-- Rule-1 keywords of the classifier. -/
def notConfiguredKeys : List String := ["not found", "not configured", "no such server"]

/-- Rule-2 keywords of the classifier. -/
def authErrorKeys : List String := ["unauthorized", "authentication", "forbidden", "401", "403"]

/-- Rule-3 keywords of the classifier. -/
def connectionKeys : List String := ["timeout", "connection", "refused"]

/-- Rule-4 keywords of the classifier. -/
def oauthKeys : List String := ["oauth", "token"]

/-- Whether any keyword of `ks` occurs in the lowercased error text. -/
def hitAny (ks : List String) (errorMsg : String) : Bool :=
  ks.any (fun x => hasSub (pyLower errorMsg) x)

/-- The ordered first-match error classifier of `test_server_with_auth`
(src/main.py lines 407-422): status bucket plus friendly message. -/
def classify (errorMsg : String) : Status × String :=
  if hitAny notConfiguredKeys errorMsg then
    (Status.notConfigured, "Server or credentials not configured")
  else if hitAny authErrorKeys errorMsg then
    (Status.authError, "Authentication failed - check credentials/OAuth flow")
  else if hitAny connectionKeys errorMsg then
    (Status.connectionError, "Connection failed - server may be unreachable")
  else if hitAny oauthKeys errorMsg then
    (Status.oauthRequired, "OAuth authentication required - run oauth flow first")
  else
    (Status.error, errorMsg)

/-! ## Authenticated probe runner (`test_server_with_auth`) -/

/-- The static parameters of one authenticated probe invocation. -/
structure AuthSpec where
  serverName : String
  testTool : String
  testArgs : Json
  transport : String
  testDescription : String := ""

/-- One `call_tool` invocation, recorded for the invocation trace. -/
structure Call where
  server : String
  tool : String
  args : Json

/-- The `test_descriptions` table of `test_server_with_auth`. -/
def testDescriptionsTable : List (String × String) :=
  [("github", "Search top Python AI repos with >1000 stars"),
   ("linear", "Find in-progress bugs in Linear"),
   ("notion", "Search for meeting notes"),
   ("perplexity", "Query latest LLM developments"),
   ("supabase", "List Supabase projects"),
   ("hubspot", "Search CRM contacts"),
   ("circleci", "Get React repository pipelines"),
   ("figma", "Access design file"),
   ("atlassian", "Query JIRA in-progress issues"),
   ("airweave", "Search AI/ML knowledge base"),
   ("maps-grounding-lite", "Find SF coffee shops")]

/-- First-match lookup in a string table. -/
def lookupStr (k : String) (tbl : List (String × String)) : Option String :=
  (tbl.find? (fun p => p.1 == k)).map (fun p => p.2)

/-- `desc = test_description or test_descriptions.get(server_name, f"Call {test_tool}")`. -/
def authDesc (spec : AuthSpec) : String :=
  if spec.testDescription != "" then spec.testDescription
  else (lookupStr spec.serverName testDescriptionsTable).getD ("Call " ++ spec.testTool)

/-- `test_server_with_auth` (src/main.py lines 322-433).  Returns the result
dictionary together with the trace of `call_tool` invocations performed. -/
def test_server_with_auth (reg : Registry) (spec : AuthSpec) (ts : String) :
    ProbeResult × List Call :=
  let desc := authDesc spec
  if spec.serverName ∈ reg.configs then
    match reg.callTool spec.serverName spec.testTool spec.testArgs with
    | Except.ok res =>
        let content := headText res.content
        ({ server := some spec.serverName
           status := Status.success
           transport := some spec.transport
           authRequired := some true
           details := some ("✓ " ++ desc)
           testDescription := some desc
           responseLength := some content.length
           dataSample := some (if content.length > 150 then pyTake content 150 ++ "..." else content)
           timestamp := some ts },
         [⟨spec.serverName, spec.testTool, spec.testArgs⟩])
    | Except.error e =>
        ({ server := some spec.serverName
           status := (classify e).1
           transport := some spec.transport
           authRequired := some true
           errorMsg := some (classify e).2
           errorDetail := some e
           timestamp := some ts },
         [⟨spec.serverName, spec.testTool, spec.testArgs⟩])
  else
    ({ server := some spec.serverName
       status := Status.notConfigured
       transport := some spec.transport
       authRequired := some true
       testDescription := some desc
       errorMsg := some ("Server \x27" ++ spec.serverName ++ "\x27 not found in registry")
       timestamp := some ts },
     [])

/-- The result component of `test_server_with_auth`. -/
def authResult (reg : Registry) (spec : AuthSpec) (ts : String) : ProbeResult :=
  (test_server_with_auth reg spec ts).1

/-! ## Independent probes (`test_fetch_server`, `test_filesystem_server`,
`test_playwright_server`, `test_sequential_thinking_server`) -/

/-- Arguments of the first fetch call. -/
def topstoriesArgs : Json :=
  Json.obj [("url", Json.str "https://hacker-news.firebaseio.com/v0/topstories.json")]

/-- Arguments of the second fetch call for a given story id rendering. -/
def itemArgs (idStr : String) : Json :=
  Json.obj [("url", Json.str ("https://hacker-news.firebaseio.com/v0/item/" ++ idStr ++ ".json"))]

/-- The `try` body of `test_fetch_server` (src/main.py lines 45-92); an
`Except.error` is a raised exception reaching the `except` handler. -/
def fetchBody (ctx : Ctx) (ts : String) : Except String ProbeResult :=
  match ctx.reg.callTool "fetch" "fetch" topstoriesArgs with
  | Except.error e => Except.error e
  | Except.ok result =>
    if (headText result.content).isEmpty || (headText result.content).length < 10 then
      Except.error "No valid data received from Hacker News API"
    else
      match ctx.loads (headText result.content) with
      | Except.error e => Except.error e
      | Except.ok storyIds =>
        match storyIds with
        | Json.arr (firstId :: restIds) =>
          match ctx.reg.callTool "fetch" "fetch" (itemArgs (pyStr firstId)) with
          | Except.error e => Except.error e
          | Except.ok firstStoryResult =>
            match ctx.loads (headText firstStoryResult.content) with
            | Except.error e => Except.error e
            | Except.ok (Json.obj fields) =>
              if jTruthy (jLookup fields "title") then
                Except.ok
                  { server := some "fetch"
                    status := Status.success
                    transport := some "stdio"
                    authRequired := some false
                    details := some ("✓ Fetched " ++ toString (firstId :: restIds).length
                      ++ " top stories from Hacker News")
                    testDescription := some "Fetch latest tech news and validate data quality"
                    dataSample := some ("Top story: "
                      ++ pyStr ((jLookup fields "title").getD (Json.str ""))
                      ++ " (Score: " ++ pyStr ((jLookup fields "score").getD (Json.num 0)) ++ ")")
                    extra := [("stories_count", toString (firstId :: restIds).length),
                              ("top_story_title", pyStr ((jLookup fields "title").getD (Json.str ""))),
                              ("top_story_score", pyStr ((jLookup fields "score").getD (Json.num 0)))]
                    timestamp := some ts }
              else Except.error "Story data missing title field"
            | Except.ok _ =>
              Except.error "\x27object\x27 has no attribute \x27get\x27"
        | _ => Except.error "Invalid response format - expected array of story IDs"

/-- `test_fetch_server` after the `except` handler: always a result dict. -/
def test_fetch_server_impl (ctx : Ctx) (ts : String) : ProbeResult :=
  match fetchBody ctx ts with
  | Except.ok r => r
  | Except.error e =>
      { server := some "fetch", status := Status.error, transport := some "stdio",
        authRequired := some false, errorMsg := some e, timestamp := some ts }

/-- `test_fetch_server` as a task handed to `asyncio.gather`: `fault` models an
exception escaping the function itself (e.g. raised before the `try` block or
a cancellation), which `gather(return_exceptions=True)` captures. -/
def test_fetch_server (fault : Option String) (ctx : Ctx) (ts : String) :
    Except String ProbeResult :=
  match fault with
  | some e => Except.error e
  | none => Except.ok (test_fetch_server_impl ctx ts)

/-- Keyword test of the `config_files` comprehension of `test_filesystem_server`. -/
def keywordHit (f : String) : Bool :=
  ["config", ".yaml", ".json", "readme"].any (fun x => hasSub (pyLower f) x)

/-- The `files` local of `test_filesystem_server`: a parsed JSON value when the
listing starts with a bracket, otherwise the lines of the listing. -/
inductive Files where
  | json (j : Json)
  | strs (ls : List String)

/-- `config_files` count: string elements of `files` (when it is a Python
list) that contain one of the keywords. -/
def configCount : Files → Nat
  | Files.json (Json.arr xs) =>
      (xs.filter (fun j => match j with | Json.str s => keywordHit s | _ => false)).length
  | Files.json _ => 0
  | Files.strs ls => (ls.filter keywordHit).length

/-- `len(files) if isinstance(files, list) else len(content.split('\n'))`. -/
def totalFiles (content : String) : Files → Nat
  | Files.json (Json.arr xs) => xs.length
  | Files.json _ => (splitLines content).length
  | Files.strs ls => ls.length

/-- Second half of the `try` body of `test_filesystem_server`, after `files`
has been computed. -/
def fsStep2 (ctx : Ctx) (ts content : String) (files : Files) : Except String ProbeResult :=
  match ctx.reg.callTool "filesystem" "read_file" (Json.obj [("path", Json.str "README.md")]) with
  | Except.error e => Except.error e
  | Except.ok readmeResult =>
    if (headText readmeResult.content).isEmpty
        || !(hasSub (headText readmeResult.content) "MCP") then
      Except.error "Failed to read README.md or invalid content"
    else
      Except.ok
        { server := some "filesystem"
          status := Status.success
          transport := some "stdio"
          authRequired := some false
          details := some ("✓ Analyzed project: found config files and read README ("
            ++ toString (splitLines (headText readmeResult.content)).length ++ " lines)")
          testDescription := some "Analyze project structure and read configuration files"
          dataSample := some ("README preview: " ++ pyTake (headText readmeResult.content) 100 ++ "...")
          extra := [("total_files", toString (totalFiles content files)),
                    ("config_files_found", toString (configCount files)),
                    ("readme_lines", toString (splitLines (headText readmeResult.content)).length)]
          timestamp := some ts }

/-- The `try` body of `test_filesystem_server` (src/main.py lines 119-167). -/
def fsBody (ctx : Ctx) (ts : String) : Except String ProbeResult :=
  match ctx.reg.callTool "filesystem" "list_directory" (Json.obj [("path", Json.str ".")]) with
  | Except.error e => Except.error e
  | Except.ok listResult =>
    if (headText listResult.content).isEmpty || (headText listResult.content).length < 10 then
      Except.error "No valid directory listing received"
    else
      if startsWithBracket (headText listResult.content) then
        match ctx.loads (headText listResult.content) with
        | Except.error e => Except.error e
        | Except.ok j => fsStep2 ctx ts (headText listResult.content) (Files.json j)
      else
        fsStep2 ctx ts (headText listResult.content)
          (Files.strs (splitLines (headText listResult.content)))

/-- `test_filesystem_server` after the `except` handler. -/
def test_filesystem_server_impl (ctx : Ctx) (ts : String) : ProbeResult :=
  match fsBody ctx ts with
  | Except.ok r => r
  | Except.error e =>
      { server := some "filesystem", status := Status.error, transport := some "stdio",
        authRequired := some false, errorMsg := some e, timestamp := some ts }

/-- `test_filesystem_server` as a gathered task. -/
def test_filesystem_server (fault : Option String) (ctx : Ctx) (ts : String) :
    Except String ProbeResult :=
  match fault with
  | some e => Except.error e
  | none => Except.ok (test_filesystem_server_impl ctx ts)

/-- The `try` body of `test_playwright_server` (src/main.py lines 194-231). -/
def pwBody (ctx : Ctx) (ts : String) : Except String ProbeResult :=
  match ctx.reg.callTool "playwright" "playwright_navigate"
      (Json.obj [("url", Json.str "https://github.com/trending")]) with
  | Except.error e => Except.error e
  | Except.ok _ =>
    match ctx.reg.callTool "playwright" "playwright_snapshot" (Json.obj []) with
    | Except.error e => Except.error e
    | Except.ok snap =>
      if !(hasSub (pyLower (headText snap.content)) "trending") then
        Except.error "Failed to load GitHub trending page"
      else
        Except.ok
          { server := some "playwright"
            status := Status.success
            transport := some "stdio"
            authRequired := some false
            details := some ("✓ Loaded GitHub trending, found "
              ++ toString (pyCount (pyLower (headText snap.content)) "repository")
              ++ " repo references")
            testDescription := some "Navigate to GitHub trending and extract repository data"
            dataSample := some (pyTake (headText snap.content) 200 ++ "...")
            extra := [("page_loaded", "GitHub Trending"),
                      ("repo_references_found",
                        toString (pyCount (pyLower (headText snap.content)) "repository")),
                      ("page_content_length", toString (headText snap.content).length)]
            timestamp := some ts }

/-- `test_playwright_server` after the `except` handler. -/
def test_playwright_server_impl (ctx : Ctx) (ts : String) : ProbeResult :=
  match pwBody ctx ts with
  | Except.ok r => r
  | Except.error e =>
      { server := some "playwright", status := Status.error, transport := some "stdio",
        authRequired := some false, errorMsg := some e, timestamp := some ts }

/-- `test_playwright_server` as a gathered task. -/
def test_playwright_server (fault : Option String) (ctx : Ctx) (ts : String) :
    Except String ProbeResult :=
  match fault with
  | some e => Except.error e
  | none => Except.ok (test_playwright_server_impl ctx ts)

/-- Arguments of one `create_thought` call. -/
def thoughtArgs (t ty : String) : Json :=
  Json.obj [("thought", Json.str t), ("thoughtType", Json.str ty)]

/-- The `try` body of `test_sequential_thinking_server` (src/main.py lines 258-307). -/
def seqBody (ctx : Ctx) (ts : String) : Except String ProbeResult :=
  match ctx.reg.callTool "sequential-thinking" "create_thought"
      (thoughtArgs "Problem: Calculate compound interest on $10,000 at 5% annual rate for 3 years"
        "observation") with
  | Except.error e => Except.error e
  | Except.ok thought1 =>
    match ctx.reg.callTool "sequential-thinking" "create_thought"
        (thoughtArgs "Formula: A = P(1 + r)^t where P=10000, r=0.05, t=3" "reasoning") with
    | Except.error e => Except.error e
    | Except.ok _ =>
      match ctx.reg.callTool "sequential-thinking" "create_thought"
          (thoughtArgs "Calculation: 10000 * (1.05)^3 = 10000 * 1.157625 = $11,576.25"
            "conclusion") with
      | Except.error e => Except.error e
      | Except.ok thought3 =>
        if (headText thought1.content).isEmpty || (headText thought3.content).isEmpty then
          Except.error "Failed to create complete thought sequence"
        else
          Except.ok
            { server := some "sequential-thinking"
              status := Status.success
              transport := some "stdio"
              authRequired := some false
              details := some "✓ Solved compound interest problem using 3-step reasoning"
              testDescription := some "Multi-step problem solving with structured reasoning"
              dataSample := some ("Problem→Formula→Solution: "
                ++ pyTake (headText thought1.content) 50 ++ "...")
              extra := [("thoughts_created", "3"),
                        ("problem", "Compound interest calculation"),
                        ("solution", "$11,576.25")]
              timestamp := some ts }

/-- `test_sequential_thinking_server` after the `except` handler. -/
def test_sequential_thinking_server_impl (ctx : Ctx) (ts : String) : ProbeResult :=
  match seqBody ctx ts with
  | Except.ok r => r
  | Except.error e =>
      { server := some "sequential-thinking", status := Status.error, transport := some "stdio",
        authRequired := some false, errorMsg := some e, timestamp := some ts }

/-- `test_sequential_thinking_server` as a gathered task. -/
def test_sequential_thinking_server (fault : Option String) (ctx : Ctx) (ts : String) :
    Except String ProbeResult :=
  match fault with
  | some e => Except.error e
  | none => Except.ok (test_sequential_thinking_server_impl ctx ts)

/-! ## Orchestrator (`run_all_server_tests`) -/

/-- The four no-auth coroutines handed to `asyncio.gather`, in source order;
`fs` injects a possible escaping fault per task (`none` = no fault). -/
def noAuthTests (ctx : Ctx) (ts : String) (fs : List (Option String)) :
    List (Except String ProbeResult) :=
  [test_fetch_server (fs.getD 0 none) ctx ts,
   test_filesystem_server (fs.getD 1 none) ctx ts,
   test_playwright_server (fs.getD 2 none) ctx ts,
   test_sequential_thinking_server (fs.getD 3 none) ctx ts]

/-- The result dict appended when `gather` hands back a captured exception
(src/main.py lines 465-471): only `status`, `error` and `timestamp` keys. -/
def errCapture (e ts : String) : ProbeResult :=
  { status := Status.error, errorMsg := some e, timestamp := some ts }

/-- The fan-in loop over `asyncio.gather(*no_auth_tests, return_exceptions=True)`:
task order is preserved and captured exceptions become error dicts. -/
def gatherResults (tasks : List (Except String ProbeResult)) (ts : String) :
    List ProbeResult :=
  tasks.map fun t =>
    match t with
    | Except.ok r => r
    | Except.error e => errCapture e ts

/-- The `api_key_servers` catalog (src/main.py lines 478-485). -/
def api_key_servers : List AuthSpec :=
  [⟨"airweave-search", "search", Json.obj [("query", Json.str "AI and machine learning trends")],
    "stdio", ""⟩,
   ⟨"circleci", "get_pipelines",
    Json.obj [("org_slug", Json.str "gh/facebook"), ("project_slug", Json.str "react")],
    "stdio", ""⟩,
   ⟨"perplexity", "search",
    Json.obj [("query", Json.str "What are the latest developments in LLM technology?")],
    "stdio", ""⟩,
   ⟨"maps-grounding-lite", "search_places",
    Json.obj [("query", Json.str "best coffee shops in San Francisco")],
    "streamable_http", ""⟩,
   ⟨"hubspot", "search_contacts", Json.obj [("query", Json.str "email:@example.com")],
    "streamable_http", ""⟩,
   ⟨"supabase", "list_projects", Json.obj [], "streamable_http", ""⟩]

/-- The `oauth_servers` catalog (src/main.py lines 500-506). -/
def oauth_servers : List AuthSpec :=
  [⟨"atlassian", "search_issues",
    Json.obj [("jql", Json.str "project = DEMO AND status = \x27In Progress\x27")], "sse", ""⟩,
   ⟨"figma", "get_file", Json.obj [("file_key", Json.str "sample-design-file")],
    "streamable_http", ""⟩,
   ⟨"github", "search_repositories",
    Json.obj [("query", Json.str "language:python stars:>1000 topic:ai"),
              ("sort", Json.str "stars"), ("per_page", Json.num 5)],
    "streamable_http", ""⟩,
   ⟨"linear", "search_issues", Json.obj [("query", Json.str "status:in_progress label:bug")],
    "streamable_http", ""⟩,
   ⟨"notion", "search", Json.obj [("query", Json.str "meeting notes")], "streamable_http", ""⟩]

/-- The `test_run` summary block (src/main.py lines 519-530). -/
structure TestRun where
  timestamp : String
  total_servers : Nat
  successful : Nat
  not_configured : Nat
  auth_errors : Nat
  oauth_required : Nat
  connection_errors : Nat
  other_errors : Nat
  total_errors : Nat
deriving DecidableEq, Repr

/-- Computation of the `test_run` counters from the result list. -/
def mkSummary (ts : String) (results : List ProbeResult) : TestRun :=
  { timestamp := ts
    total_servers := results.length
    successful := (results.filter (fun r => r.status == Status.success)).length
    not_configured := (results.filter (fun r => r.status == Status.notConfigured)).length
    auth_errors := (results.filter (fun r => r.status == Status.authError)).length
    oauth_required := (results.filter (fun r => r.status == Status.oauthRequired)).length
    connection_errors := (results.filter (fun r => r.status == Status.connectionError)).length
    other_errors := (results.filter (fun r => r.status == Status.error)).length
    total_errors := (results.filter
      (fun r => r.status != Status.success && r.status != Status.notConfigured)).length }

/-- `run_all_server_tests` (src/main.py lines 438-547): the summary block and
the ordered result list (gathered no-auth phase, then the API-key catalog in
order, then the OAuth catalog in order). -/
def run_all_server_tests (ctx : Ctx) (ts : String) (fs : List (Option String)) :
    TestRun × List ProbeResult :=
  let results :=
    gatherResults (noAuthTests ctx ts fs) ts
    ++ api_key_servers.map (fun s => authResult ctx.reg s ts)
    ++ oauth_servers.map (fun s => authResult ctx.reg s ts)
  (mkSummary ts results, results)

/-- The four independent probe results in catalog order. -/
def indepImpls (ctx : Ctx) (ts : String) : List ProbeResult :=
  [test_fetch_server_impl ctx ts, test_filesystem_server_impl ctx ts,
   test_playwright_server_impl ctx ts, test_sequential_thinking_server_impl ctx ts]

/-! A scheduler model for the concurrent phase: the independent tasks complete
in an arbitrary order `order` (a list of task indices); each completion stores
its value in the slot of its own index, and `gather` reads the slots back in
task-index order.  This makes "regardless of completion order" provable. -/

/-- Slot state after the completions listed in `order` have run. -/
def schedSlots (tasks : List (Except String ProbeResult)) (order : List Nat) :
    Nat → Option (Except String ProbeResult) :=
  order.foldl (fun acc i => fun j => if j = i then tasks[i]? else acc j) (fun _ => none)

/-- The values `gather` reads back, in task-index order. -/
def schedGather (tasks : List (Except String ProbeResult)) (order : List Nat) :
    List (Except String ProbeResult) :=
  (List.range tasks.length).map
    (fun j => (schedSlots tasks order j).getD (Except.error "pending"))

/-- `run_all_server_tests` with the independent phase completing in the
arbitrary order `order`. -/
def run_all_scheduled (ctx : Ctx) (ts : String) (fs : List (Option String))
    (order : List Nat) : TestRun × List ProbeResult :=
  let results :=
    gatherResults (schedGather (noAuthTests ctx ts fs) order) ts
    ++ api_key_servers.map (fun s => authResult ctx.reg s ts)
    ++ oauth_servers.map (fun s => authResult ctx.reg s ts)
  (mkSummary ts results, results)

/-! ## Helper lemmas -/

/-- The classifier never yields the `success` bucket. -/
theorem classify_fst_ne_success (e : String) : (classify e).1 ≠ Status.success := by
  unfold classify
  split
  · simp
  · split
    · simp
    · split
      · simp
      · split <;> simp

/-- An unconfigured server short-circuits `test_server_with_auth`. -/
theorem auth_unconfigured (reg : Registry) (spec : AuthSpec) (ts : String)
    (h : spec.serverName ∉ reg.configs) :
    test_server_with_auth reg spec ts =
      ({ server := some spec.serverName
         status := Status.notConfigured
         transport := some spec.transport
         authRequired := some true
         testDescription := some (authDesc spec)
         errorMsg := some ("Server \x27" ++ spec.serverName ++ "\x27 not found in registry")
         timestamp := some ts }, []) := by
  simp only [test_server_with_auth, if_neg h]

/-- A raising `call_tool` lands in the classifying `except` branch. -/
theorem auth_call_error (reg : Registry) (spec : AuthSpec) (ts e : String)
    (h : spec.serverName ∈ reg.configs)
    (hc : reg.callTool spec.serverName spec.testTool spec.testArgs = Except.error e) :
    test_server_with_auth reg spec ts =
      ({ server := some spec.serverName
         status := (classify e).1
         transport := some spec.transport
         authRequired := some true
         errorMsg := some (classify e).2
         errorDetail := some e
         timestamp := some ts },
       [⟨spec.serverName, spec.testTool, spec.testArgs⟩]) := by
  simp only [test_server_with_auth, if_pos h, hc]

/-- A succeeding `call_tool` always yields the success dict, whatever the
payload. -/
theorem auth_call_ok (reg : Registry) (spec : AuthSpec) (ts : String) (res : CallResult)
    (h : spec.serverName ∈ reg.configs)
    (hc : reg.callTool spec.serverName spec.testTool spec.testArgs = Except.ok res) :
    test_server_with_auth reg spec ts =
      ({ server := some spec.serverName
         status := Status.success
         transport := some spec.transport
         authRequired := some true
         details := some ("✓ " ++ authDesc spec)
         testDescription := some (authDesc spec)
         responseLength := some (headText res.content).length
         dataSample := some (if (headText res.content).length > 150 then
           pyTake (headText res.content) 150 ++ "..." else headText res.content)
         timestamp := some ts },
       [⟨spec.serverName, spec.testTool, spec.testArgs⟩]) := by
  simp only [test_server_with_auth, if_pos h, hc]

/-- The fetch `try` body only returns normally with the success dict. -/
theorem fetchBody_ok (ctx : Ctx) (ts : String) (r : ProbeResult)
    (h : fetchBody ctx ts = Except.ok r) :
    r.status = Status.success ∧ r.server = some "fetch" ∧ hasFive r = true := by
  unfold fetchBody at h
  repeat' split at h
  all_goals first
    | exact Except.noConfusion h
    | (injection h with h; subst h; exact ⟨rfl, rfl, rfl⟩)

/-- The filesystem read/validate step only returns normally with the success dict. -/
theorem fsStep2_ok (ctx : Ctx) (ts content : String) (files : Files) (r : ProbeResult)
    (h : fsStep2 ctx ts content files = Except.ok r) :
    r.status = Status.success ∧ r.server = some "filesystem" ∧ hasFive r = true := by
  unfold fsStep2 at h
  repeat' split at h
  all_goals first
    | exact Except.noConfusion h
    | (injection h with h; subst h; exact ⟨rfl, rfl, rfl⟩)

/-- The filesystem `try` body only returns normally with the success dict. -/
theorem fsBody_ok (ctx : Ctx) (ts : String) (r : ProbeResult)
    (h : fsBody ctx ts = Except.ok r) :
    r.status = Status.success ∧ r.server = some "filesystem" ∧ hasFive r = true := by
  unfold fsBody at h
  repeat' split at h
  all_goals first
    | exact Except.noConfusion h
    | exact fsStep2_ok _ _ _ _ _ h

/-- The playwright `try` body only returns normally with the success dict. -/
theorem pwBody_ok (ctx : Ctx) (ts : String) (r : ProbeResult)
    (h : pwBody ctx ts = Except.ok r) :
    r.status = Status.success ∧ r.server = some "playwright" ∧ hasFive r = true := by
  unfold pwBody at h
  repeat' split at h
  all_goals first
    | exact Except.noConfusion h
    | (injection h with h; subst h; exact ⟨rfl, rfl, rfl⟩)

/-- The sequential-thinking `try` body only returns normally with the success dict. -/
theorem seqBody_ok (ctx : Ctx) (ts : String) (r : ProbeResult)
    (h : seqBody ctx ts = Except.ok r) :
    r.status = Status.success ∧ r.server = some "sequential-thinking" ∧ hasFive r = true := by
  unfold seqBody at h
  repeat' split at h
  all_goals first
    | exact Except.noConfusion h
    | (injection h with h; subst h; exact ⟨rfl, rfl, rfl⟩)

/-- A fault in the fetch `try` body yields exactly the error dict. -/
theorem fetch_impl_error (ctx : Ctx) (ts e : String) (h : fetchBody ctx ts = Except.error e) :
    test_fetch_server_impl ctx ts =
      { server := some "fetch", status := Status.error, transport := some "stdio",
        authRequired := some false, errorMsg := some e, timestamp := some ts } := by
  unfold test_fetch_server_impl
  rw [h]

/-- The fetch probe result always carries the core keys and a status that is
either `success` or the unclassified `error`. -/
theorem fetch_impl_fields (ctx : Ctx) (ts : String) :
    hasFive (test_fetch_server_impl ctx ts) = true ∧
    ((test_fetch_server_impl ctx ts).status = Status.success ∨
     (test_fetch_server_impl ctx ts).status = Status.error) := by
  unfold test_fetch_server_impl
  cases hb : fetchBody ctx ts with
  | ok r =>
      obtain ⟨h1, _, h3⟩ := fetchBody_ok ctx ts r hb
      exact ⟨h3, Or.inl h1⟩
  | error e => exact ⟨rfl, Or.inr rfl⟩

/-- The filesystem probe result always carries the core keys and a status that
is either `success` or the unclassified `error`. -/
theorem fs_impl_fields (ctx : Ctx) (ts : String) :
    hasFive (test_filesystem_server_impl ctx ts) = true ∧
    ((test_filesystem_server_impl ctx ts).status = Status.success ∨
     (test_filesystem_server_impl ctx ts).status = Status.error) := by
  unfold test_filesystem_server_impl
  cases hb : fsBody ctx ts with
  | ok r =>
      obtain ⟨h1, _, h3⟩ := fsBody_ok ctx ts r hb
      exact ⟨h3, Or.inl h1⟩
  | error e => exact ⟨rfl, Or.inr rfl⟩

/-- The playwright probe result always carries the core keys and a status that
is either `success` or the unclassified `error`. -/
theorem pw_impl_fields (ctx : Ctx) (ts : String) :
    hasFive (test_playwright_server_impl ctx ts) = true ∧
    ((test_playwright_server_impl ctx ts).status = Status.success ∨
     (test_playwright_server_impl ctx ts).status = Status.error) := by
  unfold test_playwright_server_impl
  cases hb : pwBody ctx ts with
  | ok r =>
      obtain ⟨h1, _, h3⟩ := pwBody_ok ctx ts r hb
      exact ⟨h3, Or.inl h1⟩
  | error e => exact ⟨rfl, Or.inr rfl⟩

/-- The sequential-thinking probe result always carries the core keys and a
status that is either `success` or the unclassified `error`. -/
theorem seq_impl_fields (ctx : Ctx) (ts : String) :
    hasFive (test_sequential_thinking_server_impl ctx ts) = true ∧
    ((test_sequential_thinking_server_impl ctx ts).status = Status.success ∨
     (test_sequential_thinking_server_impl ctx ts).status = Status.error) := by
  unfold test_sequential_thinking_server_impl
  cases hb : seqBody ctx ts with
  | ok r =>
      obtain ⟨h1, _, h3⟩ := seqBody_ok ctx ts r hb
      exact ⟨h3, Or.inl h1⟩
  | error e => exact ⟨rfl, Or.inr rfl⟩

/-- Every `test_server_with_auth` result carries the core keys. -/
theorem auth_hasFive (reg : Registry) (spec : AuthSpec) (ts : String) :
    hasFive (authResult reg spec ts) = true := by
  unfold authResult
  by_cases hm : spec.serverName ∈ reg.configs
  · cases hc : reg.callTool spec.serverName spec.testTool spec.testArgs with
    | ok res => rw [auth_call_ok reg spec ts res hm hc]; rfl
    | error e => rw [auth_call_error reg spec ts e hm hc]; rfl
  · rw [auth_unconfigured reg spec ts hm]; rfl

/-- The six status filters of `mkSummary` partition any result list. -/
theorem status_partition (rs : List ProbeResult) :
    (rs.filter (fun r => r.status == Status.success)).length
  + (rs.filter (fun r => r.status == Status.notConfigured)).length
  + (rs.filter (fun r => r.status == Status.authError)).length
  + (rs.filter (fun r => r.status == Status.oauthRequired)).length
  + (rs.filter (fun r => r.status == Status.connectionError)).length
  + (rs.filter (fun r => r.status == Status.error)).length = rs.length := by
  induction rs with
  | nil => rfl
  | cons r t ih =>
      cases h : r.status <;>
        simp only [List.filter_cons, h, List.length_cons] <;>
        simp <;> omega

/-- The `total_errors` filter splits into the four error-status filters. -/
theorem total_errors_split (rs : List ProbeResult) :
    (rs.filter (fun r => r.status != Status.success && r.status != Status.notConfigured)).length
  = (rs.filter (fun r => r.status == Status.authError)).length
  + (rs.filter (fun r => r.status == Status.oauthRequired)).length
  + (rs.filter (fun r => r.status == Status.connectionError)).length
  + (rs.filter (fun r => r.status == Status.error)).length := by
  induction rs with
  | nil => rfl
  | cons r t ih =>
      cases h : r.status <;>
        simp only [List.filter_cons, h, List.length_cons] <;>
        simp <;> omega

/-- Character length of a Python slice. -/
theorem pyTake_length (s : String) (n : Nat) :
    (pyTake s n).length = min n s.length := by
  cases s with
  | mk data =>
      show (data.take n).length = min n data.length
      exact List.length_take n data

/-- Slot lookup after a completion sequence: the last write to a slot sticks,
and every write to slot `j` stores `tasks[j]?`. -/
theorem schedSlots_spec (tasks : List (Except String ProbeResult)) (order : List Nat)
    (acc : Nat → Option (Except String ProbeResult)) (j : Nat) :
    (order.foldl (fun acc i => fun j => if j = i then tasks[i]? else acc j) acc) j =
      if j ∈ order then tasks[j]? else acc j := by
  induction order generalizing acc with
  | nil => simp
  | cons i rest ih =>
      simp only [List.foldl_cons]
      rw [ih]
      by_cases hjr : j ∈ rest
      · simp [hjr]
      · by_cases hji : j = i
        · subst hji; simp [hjr]
        · simp [hjr, hji]

/-- If every task index completes, `gather` reads back the tasks in task
order, whatever the completion order was. -/
theorem schedGather_eq (tasks : List (Except String ProbeResult)) (order : List Nat)
    (h : ∀ j, j < tasks.length → j ∈ order) : schedGather tasks order = tasks := by
  apply List.ext_get
  · simp [schedGather]
  · intro i h1 h2
    simp only [schedGather, List.get_eq_getElem, List.getElem_map, List.getElem_range]
    have hi : i < tasks.length := by
      simpa [schedGather] using h2
    rw [schedSlots, schedSlots_spec, if_pos (h i hi), List.getElem?_eq_getElem hi]
    rfl

/-! ## Concrete registries and contexts used by witnesses and counterexamples -/

/-- A registry with nothing configured whose every invocation fails with
`"connection refused"`. -/
def regRefused : Registry :=
  { configs := [], callTool := fun _ _ _ => Except.error "connection refused" }

/-- A `json.loads` that rejects every input. -/
def loadsFail : String → Except String Json :=
  fun _ => Except.error "Expecting value: line 1 column 1 (char 0)"

/-- Context built on `regRefused`. -/
def ctxRefused : Ctx := ⟨regRefused, loadsFail⟩

/-- The text of the modelled top-stories response. -/
def topstoriesText : String := "[1, 2, 3, 4]"

/-- The text of the modelled first-story response. -/
def storyText : String := "\x7b\"title\": \"Lean\", \"score\": 42\x7d"

/-- A registry serving a plausible Hacker News exchange. -/
def regFetchOk : Registry :=
  { configs := []
    callTool := fun _ _ args =>
      match args with
      | Json.obj [("url", Json.str u)] =>
          if u = "https://hacker-news.firebaseio.com/v0/topstories.json" then
            Except.ok ⟨[topstoriesText]⟩
          else Except.ok ⟨[storyText]⟩
      | _ => Except.error "bad arguments" }

/-- A `json.loads` consistent with `regFetchOk`. -/
def loadsFetch : String → Except String Json := fun s =>
  if s = topstoriesText then
    Except.ok (Json.arr [Json.num 1, Json.num 2, Json.num 3, Json.num 4])
  else if s = storyText then
    Except.ok (Json.obj [("title", Json.str "Lean"), ("score", Json.num 42)])
  else Except.error "Expecting value: line 1 column 1 (char 0)"

/-- Context on which `test_fetch_server` fully succeeds. -/
def ctxFetchOk : Ctx := ⟨regFetchOk, loadsFetch⟩

/-- A 300-character story title. -/
def longTitle : String := String.mk (List.replicate 300 'a')

/-- A story response whose title is 300 characters long. -/
def longStoryText : String := "\x7b\"title\": \"" ++ longTitle ++ "\"\x7d"

/-- A registry serving a story with a 300-character title. -/
def regFetchLong : Registry :=
  { configs := []
    callTool := fun _ _ args =>
      match args with
      | Json.obj [("url", Json.str u)] =>
          if u = "https://hacker-news.firebaseio.com/v0/topstories.json" then
            Except.ok ⟨[topstoriesText]⟩
          else Except.ok ⟨[longStoryText]⟩
      | _ => Except.error "bad arguments" }

/-- A `json.loads` consistent with `regFetchLong`. -/
def loadsFetchLong : String → Except String Json := fun s =>
  if s = topstoriesText then
    Except.ok (Json.arr [Json.num 1, Json.num 2, Json.num 3, Json.num 4])
  else if s = longStoryText then
    Except.ok (Json.obj [("title", Json.str longTitle)])
  else Except.error "Expecting value: line 1 column 1 (char 0)"

/-- Context on which `test_fetch_server` succeeds with a 300-character title. -/
def ctxFetchLong : Ctx := ⟨regFetchLong, loadsFetchLong⟩

/-- A story response that parses but has no `title` field. -/
def noTitleText : String := "\x7b\"id\": 1\x7d"

/-- A registry serving a story without a title. -/
def regNoTitle : Registry :=
  { configs := []
    callTool := fun _ _ args =>
      match args with
      | Json.obj [("url", Json.str u)] =>
          if u = "https://hacker-news.firebaseio.com/v0/topstories.json" then
            Except.ok ⟨[topstoriesText]⟩
          else Except.ok ⟨[noTitleText]⟩
      | _ => Except.error "bad arguments" }

/-- A `json.loads` consistent with `regNoTitle`. -/
def loadsNoTitle : String → Except String Json := fun s =>
  if s = topstoriesText then
    Except.ok (Json.arr [Json.num 1, Json.num 2, Json.num 3, Json.num 4])
  else if s = noTitleText then
    Except.ok (Json.obj [("id", Json.num 1)])
  else Except.error "Expecting value: line 1 column 1 (char 0)"

/-- Context on which the fetch story lacks the required `title` field. -/
def ctxNoTitle : Ctx := ⟨regNoTitle, loadsNoTitle⟩

/-- The github probe spec used in concrete runs. -/
def specGithub : AuthSpec :=
  ⟨"github", "search_repositories", Json.obj [], "streamable_http", ""⟩

/-- The supabase probe spec used in concrete runs. -/
def specSupabase : AuthSpec :=
  ⟨"supabase", "list_projects", Json.obj [], "streamable_http", ""⟩

/-- github configured; every call returns an empty payload. -/
def regEmptyOk : Registry :=
  { configs := ["github"], callTool := fun _ _ _ => Except.ok ⟨[""]⟩ }

/-- github configured; every call fails with `"403 Forbidden"`. -/
def regForbidden : Registry :=
  { configs := ["github"], callTool := fun _ _ _ => Except.error "403 Forbidden" }

/-- github configured; every call returns a 200-character payload. -/
def regLongContent : Registry :=
  { configs := ["github"], callTool := fun _ _ _ => Except.ok ⟨[String.mk (List.replicate 200 'b')]⟩ }

/-- Nothing configured; every call returns a 5-character payload. -/
def regShort : Registry :=
  { configs := [], callTool := fun _ _ _ => Except.ok ⟨["short"]⟩ }

/-- Context whose fetch payload is too short to pass validation. -/
def ctxShort : Ctx := ⟨regShort, loadsFail⟩

/-! ## Claims -/

/-- C1: the probe runner never propagates an exception to the orchestrator
(it is a total function into `ProbeResult` by construction); every failure
path — configuration check, invocation error, raised body fault — yields a
non-`success` status; and a fault in one independent probe neither removes the
other probes' results from the report (slot `i` still holds probe `i`'s own
result) nor changes the report's length. -/
theorem probe_runner_isolation :
    (∀ (reg : Registry) (spec : AuthSpec) (ts e : String),
        spec.serverName ∈ reg.configs →
        reg.callTool spec.serverName spec.testTool spec.testArgs = Except.error e →
        (authResult reg spec ts).status ≠ Status.success) ∧
    (∀ (reg : Registry) (spec : AuthSpec) (ts : String),
        spec.serverName ∉ reg.configs →
        (authResult reg spec ts).status = Status.notConfigured) ∧
    (∀ (ctx : Ctx) (ts e : String), fetchBody ctx ts = Except.error e →
        (test_fetch_server_impl ctx ts).status = Status.error) ∧
    (∀ (ctx : Ctx) (ts : String) (fs : List (Option String)) (i : Nat), i < 4 →
        fs.getD i none = none →
        (run_all_server_tests ctx ts fs).2[i]? = (indepImpls ctx ts)[i]?) ∧
    (∀ (ctx : Ctx) (ts : String) (fs : List (Option String)),
        (run_all_server_tests ctx ts fs).2.length = 15) := by
  refine ⟨?_, ?_, ?_, ?_, ?_⟩
  · intro reg spec ts e hm hc
    unfold authResult
    rw [auth_call_error reg spec ts e hm hc]
    exact classify_fst_ne_success e
  · intro reg spec ts hm
    unfold authResult
    rw [auth_unconfigured reg spec ts hm]
  · intro ctx ts e h
    rw [fetch_impl_error ctx ts e h]
  · intro ctx ts fs i hi hnone
    simp only [List.getD, List.get?_eq_getElem?] at hnone
    interval_cases i <;>
      simp [run_all_server_tests, gatherResults, noAuthTests, indepImpls,
        test_fetch_server, test_filesystem_server, test_playwright_server,
        test_sequential_thinking_server, hnone]
  · intro ctx ts fs
    rfl

/-- Witness for C1 at concrete registries, faults and schedules. -/
theorem probe_runner_isolation_witness :
    (authResult regForbidden specGithub "t").status ≠ Status.success ∧
    (authResult regRefused specSupabase "t").status = Status.notConfigured ∧
    (test_fetch_server_impl ctxRefused "t").status = Status.error ∧
    (run_all_server_tests ctxRefused "t" [some "boom", none, none, none]).2[1]? =
      (indepImpls ctxRefused "t")[1]? ∧
    (run_all_server_tests ctxRefused "t" []).2.length = 15 :=
  ⟨probe_runner_isolation.1 regForbidden specGithub "t" "403 Forbidden" (by decide) rfl,
   probe_runner_isolation.2.1 regRefused specSupabase "t" (by decide),
   probe_runner_isolation.2.2.1 ctxRefused "t" "connection refused" rfl,
   probe_runner_isolation.2.2.2.1 ctxRefused "t" [some "boom", none, none, none] 1
     (by decide) rfl,
   probe_runner_isolation.2.2.2.2 ctxRefused "t" []⟩

/-- C4: a probe of the ApiKey/OAuth class whose server has no registered
configuration performs no `call_tool` invocation (empty trace) and yields
`not_configured`. -/
theorem unconfigured_short_circuit (reg : Registry) (spec : AuthSpec) (ts : String)
    (h : spec.serverName ∉ reg.configs) :
    (test_server_with_auth reg spec ts).2 = [] ∧
    (test_server_with_auth reg spec ts).1.status = Status.notConfigured := by
  rw [auth_unconfigured reg spec ts h]
  exact ⟨rfl, rfl⟩

/-- Witness for C4: the github spec against an empty registry. -/
theorem unconfigured_short_circuit_witness :
    (test_server_with_auth regRefused specGithub "t").2 = [] ∧
    (test_server_with_auth regRefused specGithub "t").1.status = Status.notConfigured :=
  unconfigured_short_circuit regRefused specGithub "t" (by decide)

/-- C2 counterexample: an error text containing both a ConnectionError keyword
("timeout") and an OAuthRequired keyword ("token") need not classify as
`connection_error` — here it also contains the rule-1 keyword "not found" and
classifies as `not_configured`. -/
theorem classifier_precedence_counterexample :
    hasSub (pyLower "timeout token not found") "timeout" = true ∧
    hasSub (pyLower "timeout token not found") "token" = true ∧
    (classify "timeout token not found").1 = Status.notConfigured ∧
    Status.notConfigured ≠ Status.connectionError :=
  ⟨by decide, by decide, by decide, by decide⟩

/-- C2 (amended): the classifier is a total deterministic function applying
ordered first-match substring rules over the lowercased text; an error text
containing a ConnectionError keyword and an OAuthRequired keyword — and no
keyword of the two earlier rules — yields ConnectionError; the spec's two
concrete examples hold as stated. -/
theorem classifier_rules_amended :
    (∀ e, hitAny notConfiguredKeys e = true →
        classify e = (Status.notConfigured, "Server or credentials not configured")) ∧
    (∀ e, hitAny notConfiguredKeys e = false → hitAny authErrorKeys e = true →
        classify e = (Status.authError, "Authentication failed - check credentials/OAuth flow")) ∧
    (∀ e, hitAny notConfiguredKeys e = false → hitAny authErrorKeys e = false →
        hitAny connectionKeys e = true →
        classify e = (Status.connectionError, "Connection failed - server may be unreachable")) ∧
    (∀ e, hitAny notConfiguredKeys e = false → hitAny authErrorKeys e = false →
        hitAny connectionKeys e = false → hitAny oauthKeys e = true →
        classify e = (Status.oauthRequired, "OAuth authentication required - run oauth flow first")) ∧
    (∀ e, hitAny notConfiguredKeys e = false → hitAny authErrorKeys e = false →
        hitAny connectionKeys e = false → hitAny oauthKeys e = false →
        classify e = (Status.error, e)) ∧
    classify "connection timeout, token expired" =
      (Status.connectionError, "Connection failed - server may be unreachable") ∧
    classify "weird 500" = (Status.error, "weird 500") := by
  refine ⟨?_, ?_, ?_, ?_, ?_, by decide, by decide⟩
  · intro e h; simp [classify, h]
  · intro e h1 h2; simp [classify, h1, h2]
  · intro e h1 h2 h3; simp [classify, h1, h2, h3]
  · intro e h1 h2 h3 h4; simp [classify, h1, h2, h3, h4]
  · intro e h1 h2 h3 h4; simp [classify, h1, h2, h3, h4]

/-- Witness for C2 (amended) at one concrete text per rule. -/
theorem classifier_rules_amended_witness :
    classify "server not configured" =
      (Status.notConfigured, "Server or credentials not configured") ∧
    classify "401 Unauthorized" =
      (Status.authError, "Authentication failed - check credentials/OAuth flow") ∧
    classify "connection refused" =
      (Status.connectionError, "Connection failed - server may be unreachable") ∧
    classify "oauth needed" =
      (Status.oauthRequired, "OAuth authentication required - run oauth flow first") ∧
    classify "weird 500" = (Status.error, "weird 500") :=
  ⟨classifier_rules_amended.1 "server not configured" (by decide),
   classifier_rules_amended.2.1 "401 Unauthorized" (by decide) (by decide),
   classifier_rules_amended.2.2.1 "connection refused" (by decide) (by decide) (by decide),
   classifier_rules_amended.2.2.2.1 "oauth needed" (by decide) (by decide) (by decide) (by decide),
   classifier_rules_amended.2.2.2.2.1 "weird 500" (by decide) (by decide) (by decide) (by decide)⟩

/-- C3 counterexample: an independent probe failing with "connection refused"
is not routed through the error classifier — its status is the unclassified
`error`, the raw message sits in the `error` key, there is no friendly/raw
message pair — although the classifier maps this text to `connection_error`. -/
theorem independent_failure_unclassified_counterexample :
    (test_fetch_server_impl ctxRefused "ts").status = Status.error ∧
    (test_fetch_server_impl ctxRefused "ts").errorMsg = some "connection refused" ∧
    (test_fetch_server_impl ctxRefused "ts").errorDetail = none ∧
    (classify "connection refused").1 = Status.connectionError ∧
    Status.error ≠ Status.connectionError :=
  ⟨rfl, rfl, rfl, by decide, by decide⟩

/-- The probe results of the end-to-end scenario, assembled from the code's
own probe runners: one independent probe succeeding, one independent probe
failing with "connection refused", one unconfigured ApiKey probe, one OAuth
probe failing with "403 Forbidden". -/
def scenarioResults : List ProbeResult :=
  gatherResults
    [test_fetch_server none ctxFetchOk "ts",
     test_filesystem_server none ctxRefused "ts"] "ts"
  ++ [authResult regRefused specSupabase "ts",
      authResult regForbidden specGithub "ts"]

/-- C3 (amended): only authenticated probes route failures through the error
classifier (classified status plus friendly and raw messages); independent
probes report failures with the unclassified `error` status and the raw
message only.  Consequently the end-to-end scenario yields
`connection_errors = 0` and `other_errors = 1` (not 1 and 0), the remaining
counters as the spec states. -/
theorem scenario_counts_amended :
    (∀ (reg : Registry) (spec : AuthSpec) (ts e : String),
        spec.serverName ∈ reg.configs →
        reg.callTool spec.serverName spec.testTool spec.testArgs = Except.error e →
        (authResult reg spec ts).status = (classify e).1 ∧
        (authResult reg spec ts).errorMsg = some (classify e).2 ∧
        (authResult reg spec ts).errorDetail = some e) ∧
    (∀ (ctx : Ctx) (ts e : String), fetchBody ctx ts = Except.error e →
        (test_fetch_server_impl ctx ts).status = Status.error ∧
        (test_fetch_server_impl ctx ts).errorMsg = some e ∧
        (test_fetch_server_impl ctx ts).errorDetail = none) ∧
    mkSummary "ts" scenarioResults =
      { timestamp := "ts", total_servers := 4, successful := 1, not_configured := 1,
        auth_errors := 1, oauth_required := 0, connection_errors := 0,
        other_errors := 1, total_errors := 2 } := by
  refine ⟨?_, ?_, by decide⟩
  · intro reg spec ts e hm hc
    unfold authResult
    rw [auth_call_error reg spec ts e hm hc]
    exact ⟨rfl, rfl, rfl⟩
  · intro ctx ts e h
    rw [fetch_impl_error ctx ts e h]
    exact ⟨rfl, rfl, rfl⟩

/-- Witness for C3 (amended) at a failing OAuth probe and a failing
independent probe. -/
theorem scenario_counts_amended_witness :
    ((authResult regForbidden specGithub "t").status = (classify "403 Forbidden").1 ∧
     (authResult regForbidden specGithub "t").errorMsg = some (classify "403 Forbidden").2 ∧
     (authResult regForbidden specGithub "t").errorDetail = some "403 Forbidden") ∧
    ((test_fetch_server_impl ctxRefused "t").status = Status.error ∧
     (test_fetch_server_impl ctxRefused "t").errorMsg = some "connection refused" ∧
     (test_fetch_server_impl ctxRefused "t").errorDetail = none) :=
  ⟨scenario_counts_amended.1 regForbidden specGithub "t" "403 Forbidden" (by decide) rfl,
   scenario_counts_amended.2.1 ctxRefused "t" "connection refused" rfl⟩

/-- C5: for every run, `total_servers` equals the number of results and the
six outcome counters sum to it (each result is counted exactly once). -/
theorem report_count_invariants (ctx : Ctx) (ts : String) (fs : List (Option String)) :
    (run_all_server_tests ctx ts fs).1.total_servers =
      (run_all_server_tests ctx ts fs).2.length ∧
    (run_all_server_tests ctx ts fs).1.successful
      + (run_all_server_tests ctx ts fs).1.not_configured
      + (run_all_server_tests ctx ts fs).1.auth_errors
      + (run_all_server_tests ctx ts fs).1.oauth_required
      + (run_all_server_tests ctx ts fs).1.connection_errors
      + (run_all_server_tests ctx ts fs).1.other_errors =
      (run_all_server_tests ctx ts fs).1.total_servers :=
  ⟨rfl, status_partition ((run_all_server_tests ctx ts fs).2)⟩

/-- C6: whatever order the concurrently executed independent probes complete
in (any completion schedule covering all four tasks), the run's result list is
the same, and it is the in-catalog-order Independent slice followed by the
ApiKey catalog in order followed by the OAuth catalog in order. -/
theorem results_ordering (ctx : Ctx) (ts : String) (fs : List (Option String))
    (order : List Nat) (h : ∀ j, j < 4 → j ∈ order) :
    run_all_scheduled ctx ts fs order = run_all_server_tests ctx ts fs ∧
    (run_all_server_tests ctx ts fs).2 =
      gatherResults (noAuthTests ctx ts fs) ts
      ++ api_key_servers.map (fun s => authResult ctx.reg s ts)
      ++ oauth_servers.map (fun s => authResult ctx.reg s ts) := by
  constructor
  · unfold run_all_scheduled run_all_server_tests
    have hcov : ∀ j, j < (noAuthTests ctx ts fs).length → j ∈ order := fun j hj => h j hj
    rw [schedGather_eq (noAuthTests ctx ts fs) order hcov]
  · rfl

/-- Witness for C6 at a concrete scrambled completion schedule. -/
theorem results_ordering_witness :
    run_all_scheduled ctxRefused "t" [none, none, none, none] [3, 0, 2, 1] =
      run_all_server_tests ctxRefused "t" [none, none, none, none] ∧
    (run_all_server_tests ctxRefused "t" [none, none, none, none]).2 =
      gatherResults (noAuthTests ctxRefused "t" [none, none, none, none]) "t"
      ++ api_key_servers.map (fun s => authResult ctxRefused.reg s "t")
      ++ oauth_servers.map (fun s => authResult ctxRefused.reg s "t") :=
  results_ordering ctxRefused "t" [none, none, none, none] [3, 0, 2, 1] (by decide)

/-- C10: for every run, `total_errors` counts exactly the results whose status
is neither `success` nor `not_configured`, and equals the sum of the four
error counters. -/
theorem total_errors_invariant (ctx : Ctx) (ts : String) (fs : List (Option String)) :
    (run_all_server_tests ctx ts fs).1.total_errors =
      ((run_all_server_tests ctx ts fs).2.filter
        (fun r => r.status != Status.success && r.status != Status.notConfigured)).length ∧
    (run_all_server_tests ctx ts fs).1.total_errors =
      (run_all_server_tests ctx ts fs).1.auth_errors
      + (run_all_server_tests ctx ts fs).1.oauth_required
      + (run_all_server_tests ctx ts fs).1.connection_errors
      + (run_all_server_tests ctx ts fs).1.other_errors :=
  ⟨rfl, total_errors_split ((run_all_server_tests ctx ts fs).2)⟩

/-- C7 counterexample: an authenticated probe whose invocation succeeds with
an empty payload — which fails the "meaningful response" check
`len(content) < 2` — is still reported as `success`. -/
theorem auth_empty_response_success_counterexample :
    (authResult regEmptyOk specGithub "ts").status = Status.success ∧
    (authResult regEmptyOk specGithub "ts").responseLength = some 0 ∧
    (authResult regEmptyOk specGithub "ts").dataSample = some "" :=
  ⟨rfl, rfl, rfl⟩

/-- C7 (amended): for the independent probes a failed validation is a failure
outcome, never `success` — short payload or missing required field on the
fetch probe yields status `error`; authenticated probes perform no such gate:
any successful invocation is reported as `success`, even for an empty or
too-short payload. -/
theorem validation_failure_amended :
    (∀ (ctx : Ctx) (ts : String) (res : CallResult),
        ctx.reg.callTool "fetch" "fetch" topstoriesArgs = Except.ok res →
        (headText res.content).length < 10 →
        (test_fetch_server_impl ctx ts).status = Status.error) ∧
    ((test_fetch_server_impl ctxNoTitle "ts").status = Status.error ∧
     (test_fetch_server_impl ctxNoTitle "ts").errorMsg =
       some "Story data missing title field") ∧
    (∀ (reg : Registry) (spec : AuthSpec) (ts : String) (res : CallResult),
        spec.serverName ∈ reg.configs →
        reg.callTool spec.serverName spec.testTool spec.testArgs = Except.ok res →
        (authResult reg spec ts).status = Status.success) := by
  refine ⟨?_, ⟨rfl, rfl⟩, ?_⟩
  · intro ctx ts res h hlen
    have hb : fetchBody ctx ts = Except.error "No valid data received from Hacker News API" := by
      unfold fetchBody
      rw [h]
      simp [hlen]
    rw [fetch_impl_error ctx ts _ hb]
  · intro reg spec ts res hm hc
    unfold authResult
    rw [auth_call_ok reg spec ts res hm hc]

/-- Witness for C7 (amended): a 5-character fetch payload fails validation
while an authenticated probe with an empty payload succeeds. -/
theorem validation_failure_amended_witness :
    (test_fetch_server_impl ctxShort "t").status = Status.error ∧
    (authResult regEmptyOk specGithub "t").status = Status.success :=
  ⟨validation_failure_amended.1 ctxShort "t" ⟨["short"]⟩ rfl (by decide),
   validation_failure_amended.2.2 regEmptyOk specGithub "t" ⟨[""]⟩ (by decide) rfl⟩

/-- The exception-capture dict carries no `server`, `transport` or
`auth_required` key. -/
theorem capture_shape (e ts : String) :
    (errCapture e ts).server = none ∧ (errCapture e ts).transport = none ∧
    (errCapture e ts).authRequired = none ∧ (errCapture e ts).status = Status.error ∧
    (errCapture e ts).errorMsg.isSome = true ∧ (errCapture e ts).timestamp = some ts :=
  ⟨rfl, rfl, rfl, rfl, rfl, rfl⟩

/-- Shape of one gathered task result: the probe's own dict when no fault
escaped, the minimal capture dict otherwise. -/
theorem task_result_fields (ts : String) (fault : Option String) (impl : ProbeResult)
    (hImpl : hasFive impl = true) (r : ProbeResult)
    (hr : r = (match (match fault with
        | some e => Except.error e
        | none => (Except.ok impl : Except String ProbeResult)) with
      | Except.ok x => x
      | Except.error e => errCapture e ts)) :
    hasFive r = true ∨
    (r.server = none ∧ r.transport = none ∧ r.authRequired = none ∧
     r.status = Status.error ∧ r.errorMsg.isSome = true ∧ r.timestamp = some ts) := by
  cases fault with
  | none => subst hr; exact Or.inl hImpl
  | some e => subst hr; exact Or.inr (capture_shape e ts)

/-- C8 counterexample: the report entry produced by the orchestrator's
exception-capture path contains only `status`, `error` and `timestamp` — no
`server`, `transport` or `auth_required`. -/
theorem exception_capture_missing_fields_counterexample :
    (run_all_server_tests ctxRefused "ts" [some "boom", none, none, none]).2[0]? =
      some (errCapture "boom" "ts") ∧
    (errCapture "boom" "ts").server = none ∧
    (errCapture "boom" "ts").transport = none ∧
    (errCapture "boom" "ts").authRequired = none ∧
    hasFive (errCapture "boom" "ts") = false :=
  ⟨rfl, rfl, rfl, rfl, rfl⟩

/-- C8 (amended): every result entry produced by a probe function carries
`server`, `status`, `transport`, `auth_required` and `timestamp`; an entry
produced by the orchestrator's exception-capture path carries only `status`,
`error` and `timestamp`. -/
theorem result_fields_amended (ctx : Ctx) (ts : String) (fs : List (Option String))
    (r : ProbeResult) (hr : r ∈ (run_all_server_tests ctx ts fs).2) :
    hasFive r = true ∨
    (r.server = none ∧ r.transport = none ∧ r.authRequired = none ∧
     r.status = Status.error ∧ r.errorMsg.isSome = true ∧ r.timestamp = some ts) := by
  simp only [run_all_server_tests, gatherResults, noAuthTests, List.map_cons, List.map_nil,
    List.mem_append, List.mem_cons, List.not_mem_nil, or_false, List.mem_map,
    test_fetch_server, test_filesystem_server, test_playwright_server,
    test_sequential_thinking_server] at hr
  rcases hr with ((hr | hr | hr | hr) | hr) | hr
  · exact task_result_fields ts _ _ (fetch_impl_fields ctx ts).1 r hr
  · exact task_result_fields ts _ _ (fs_impl_fields ctx ts).1 r hr
  · exact task_result_fields ts _ _ (pw_impl_fields ctx ts).1 r hr
  · exact task_result_fields ts _ _ (seq_impl_fields ctx ts).1 r hr
  · obtain ⟨s, _, hs⟩ := hr
    exact Or.inl (hs ▸ auth_hasFive ctx.reg s ts)
  · obtain ⟨s, _, hs⟩ := hr
    exact Or.inl (hs ▸ auth_hasFive ctx.reg s ts)

/-- Witness for C8 (amended) at the capture entry of a faulted run. -/
theorem result_fields_amended_witness :
    hasFive (errCapture "boom" "ts") = true ∨
    ((errCapture "boom" "ts").server = none ∧ (errCapture "boom" "ts").transport = none ∧
     (errCapture "boom" "ts").authRequired = none ∧
     (errCapture "boom" "ts").status = Status.error ∧
     (errCapture "boom" "ts").errorMsg.isSome = true ∧
     (errCapture "boom" "ts").timestamp = some "ts") :=
  result_fields_amended ctxRefused "ts" [some "boom", none, none, none]
    (errCapture "boom" "ts") (List.mem_cons_self _ _)

/-- Any playwright success dict's sample is a 200-slice plus the marker. -/
theorem pwBody_sample (ctx : Ctx) (ts : String) (r : ProbeResult)
    (h : pwBody ctx ts = Except.ok r) :
    ∃ sc : String, r.dataSample = some (pyTake sc 200 ++ "...") := by
  unfold pwBody at h
  repeat' split at h
  all_goals first
    | exact Except.noConfusion h
    | (injection h with h; subst h; exact ⟨_, rfl⟩)

set_option maxRecDepth 100000 in
/-- C9 counterexample: on a successful fetch probe, `data_sample` embeds the
full story title untruncated — with a 300-character title the sample is 322
characters long, beyond any 150–200-character cap. -/
theorem fetch_sample_unbounded_counterexample :
    (test_fetch_server_impl ctxFetchLong "ts").status = Status.success ∧
    ((test_fetch_server_impl ctxFetchLong "ts").dataSample.getD "").length = 322 :=
  ⟨rfl, rfl⟩

/-- C9 (amended): the authenticated probes' `data_sample` is capped at 150
characters plus the `"..."` marker (appended exactly when the payload exceeds
the cap), and the playwright sample is capped at 200 characters plus the
always-appended marker; the fetch probe's `data_sample`, however, embeds the
full story title and is unbounded. -/
theorem sample_truncation_amended :
    (∀ (reg : Registry) (spec : AuthSpec) (ts : String),
        ((authResult reg spec ts).dataSample.getD "").length ≤ 153) ∧
    (∀ (reg : Registry) (spec : AuthSpec) (ts : String) (res : CallResult),
        spec.serverName ∈ reg.configs →
        reg.callTool spec.serverName spec.testTool spec.testArgs = Except.ok res →
        (headText res.content).length > 150 →
        (authResult reg spec ts).dataSample =
          some (pyTake (headText res.content) 150 ++ "...")) ∧
    (∀ (ctx : Ctx) (ts : String),
        ((test_playwright_server_impl ctx ts).dataSample.getD "").length ≤ 203) := by
  refine ⟨?_, ?_, ?_⟩
  · intro reg spec ts
    unfold authResult
    by_cases hm : spec.serverName ∈ reg.configs
    · cases hc : reg.callTool spec.serverName spec.testTool spec.testArgs with
      | ok res =>
          rw [auth_call_ok reg spec ts res hm hc]
          show (if (headText res.content).length > 150 then
            pyTake (headText res.content) 150 ++ "..." else headText res.content).length ≤ 153
          by_cases hl : (headText res.content).length > 150
          · rw [if_pos hl, String.length_append, pyTake_length]
            have h3 : ("..." : String).length = 3 := rfl
            have hmin := Nat.min_le_left 150 (headText res.content).length
            omega
          · rw [if_neg hl]
            omega
      | error e =>
          rw [auth_call_error reg spec ts e hm hc]
          simp
    · rw [auth_unconfigured reg spec ts hm]
      simp
  · intro reg spec ts res hm hc hlen
    unfold authResult
    rw [auth_call_ok reg spec ts res hm hc]
    show some (if (headText res.content).length > 150 then
      pyTake (headText res.content) 150 ++ "..." else headText res.content) = _
    rw [if_pos hlen]
  · intro ctx ts
    unfold test_playwright_server_impl
    cases hb : pwBody ctx ts with
    | ok r =>
        obtain ⟨sc, hs⟩ := pwBody_sample ctx ts r hb
        show (r.dataSample.getD "").length ≤ 203
        rw [hs]
        show (pyTake sc 200 ++ "...").length ≤ 203
        rw [String.length_append, pyTake_length]
        have h3 : ("..." : String).length = 3 := rfl
        have hmin := Nat.min_le_left 200 sc.length
        omega
    | error e => simp

set_option maxRecDepth 100000 in
/-- Witness for C9 (amended) at a configured probe returning 200 characters. -/
theorem sample_truncation_amended_witness :
    ((authResult regLongContent specGithub "t").dataSample.getD "").length ≤ 153 ∧
    (authResult regLongContent specGithub "t").dataSample =
      some (pyTake (headText (CallResult.mk [String.mk (List.replicate 200 'b')]).content)
        150 ++ "...") ∧
    ((test_playwright_server_impl ctxRefused "t").dataSample.getD "").length ≤ 203 :=
  ⟨sample_truncation_amended.1 regLongContent specGithub "t",
   sample_truncation_amended.2.1 regLongContent specGithub "t"
     ⟨[String.mk (List.replicate 200 'b')]⟩ (by decide) rfl (by decide),
   sample_truncation_amended.2.2 ctxRefused "t"⟩
